import Mathlib

/-!
Verification of the rust-backend-scaffolder CLI (src/src/main.rs).

The program is a single linear workflow with externally visible side effects
(subprocess invocations and filesystem writes).  We embed it as a pure
function that, given an environment oracle `env : Call → Bool` deciding the
success of each side-effecting operation, produces the ordered trace of
calls it performs together with the reported errors, whether it panicked,
and whether the final success message was printed.
-/

namespace Scaffolder

/-- The side-effecting operations performed by the program.

* `createProject name` — `cargo new <name>` (main.rs lines 159-162);
* `addDep project dep feature` — `cargo add <dep> [--features <feature>]`
  run inside `project` (`add_dependency`, lines 93-102);
* `writeMain project content` — `fs::write` of `<project>/src/main.rs`
  (lines 187-189);
* `createModuleDir project module` — `create_module_dir` (lines 84-91):
  one call creates the directory and its empty `mod.rs`;
* `writeGitignore project content` — `create_gitignore` (lines 104-120);
* `initRepo project` — `init_git_repo` (lines 122-153): init, stage all,
  one commit, modelled as a single fallible call;
* `passthroughAdd args` — the `cargo <args>` invocation of the `Add`
  subcommand (lines 234-245). -/
inductive Call where
  | createProject : String → Call
  | addDep : String → String → Option String → Call
  | writeMain : String → String → Call
  | createModuleDir : String → String → Call
  | writeGitignore : String → String → Call
  | initRepo : String → Call
  | passthroughAdd : List String → Call
deriving DecidableEq, Repr

/-- The `"axum"` template body of `get_main_content` (main.rs lines 45-56).
Literal braces of the Rust source are written with hex escapes. -/
def axum_main_content : String :=
  "use axum::\x7brouting::get, Router\x7d;\n\n#[tokio::main]\nasync fn main() \x7b\n    let app = Router::new().route(\"/\", get(|| async \x7b \"Hello from Axum!\" \x7d));\n    let listener = tokio::net::TcpListener::bind(\"127.0.0.1:3000\").await.unwrap();\n    println!(\"Listening on http://127.0.0.1:3000\");\n    axum::serve(listener, app).await.unwrap();\n\x7d\n"

/-- The `"actix-web"` template body of `get_main_content` (main.rs lines
57-74). -/
def actix_main_content : String :=
  "use actix_web::\x7bget, App, HttpServer, Responder, HttpResponse\x7d;\n\n#[get(\"/\")]\nasync fn index() -> impl Responder \x7b\n    HttpResponse::Ok().body(\"Hello from Actix-web!\")\n\x7d\n\n#[actix_web::main]\nasync fn main() -> std::io::Result<()> \x7b\n    println!(\"Listening on http://127.0.0.1:3000\");\n    HttpServer::new(|| App::new().service(index))\n        .bind(\"127.0.0.1:3000\")?\n        .run()\n        .await\n\x7d\n"

/-- The `_` fallback template body of `get_main_content` (main.rs lines
75-80). -/
def default_main_content : String :=
  "fn main() \x7b\n    println!(\"Hello, world!\");\n\x7d\n"

/-- `get_main_content` (main.rs lines 43-82): the template table mapping a
framework identifier to the starter `main.rs` body; unrecognized
identifiers fall back to the hello-world body. -/
def get_main_content (framework : String) : String :=
  if framework = "axum" then axum_main_content
  else if framework = "actix-web" then actix_main_content
  else default_main_content

/-- The fixed ignore-file body of `create_gitignore` (main.rs lines 105-115). -/
def gitignore_content : String :=
  "# Rust\n/target/\n\n\n# Environment\n.env\n.env.local\n.env.*.local\n\n\n"

/-- The fixed module list of main.rs line 198. -/
def module_names : List String := ["services", "models", "handlers", "routes"]

/-- The loop over user-supplied additional dependencies (main.rs lines
177-184).  Returns the `addDep` calls performed, and `some msg` when the
loop aborted the workflow on a failed add (the code returns after
reporting), `none` when every add succeeded. -/
def addUserDeps (env : Call → Bool) (name : String) :
    List String → List Call × Option String
  | [] => ([], none)
  | d :: ds =>
    let c := Call.addDep name d none
    if env c then
      let rest := addUserDeps env name ds
      (c :: rest.1, rest.2)
    else
      ([c], some ("Failed to add dependency " ++ d))

/-- The loop creating the module directories (main.rs lines 197-201).
`create_module_dir` panics on filesystem failure, so it returns the calls
performed and whether the process panicked (stopping everything after). -/
def createModuleDirs (env : Call → Bool) (name : String) :
    List String → List Call × Bool
  | [] => ([], false)
  | m :: ms =>
    let c := Call.createModuleDir name m
    if env c then
      let rest := createModuleDirs env name ms
      (c :: rest.1, rest.2)
    else
      ([c], true)

/-- The serde/tokio extra dependency calls for async frameworks (main.rs
lines 191-195).  Both calls are made in statement position and their
results are discarded by the source. -/
def extraDepCalls (name framework : String) : List Call :=
  if framework = "axum" ∨ framework = "actix-web" then
    [Call.addDep name "serde" (some "derive"),
     Call.addDep name "tokio" (some "full")]
  else []

/-- Outcome of one `scaffold_project` run: the ordered trace of calls, the
failure messages printed to stderr by the workflow, whether a filesystem
failure panicked the process, and whether the final "scaffolded
successfully" message of main.rs line 214 was printed. -/
structure ScaffoldResult where
  calls : List Call
  errors : List String
  panicked : Bool
  successPrinted : Bool
deriving DecidableEq, Repr

/-- `scaffold_project` (main.rs lines 155-216), step by step:
create the project (abort on failure), add the framework dependency
(abort on failure), add each user dependency (abort on first failure),
write `src/main.rs` (panic on failure), invoke the serde/tokio adds for
async frameworks with results discarded, create the four module
directories (panic on failure), write `.gitignore` (panic on failure),
initialize the git repository (report failure, continue), and print the
success message unconditionally at the end. -/
def scaffold_project (env : Call → Bool) (name framework : String)
    (deps : Option (List String)) : ScaffoldResult :=
  let c1 := Call.createProject name
  if env c1 = false then
    { calls := [c1], errors := ["Failed to create project " ++ name],
      panicked := false, successPrinted := false }
  else
    let c2 := Call.addDep name framework none
    if env c2 = false then
      { calls := [c1, c2],
        errors := ["Failed to add framework dependency " ++ framework],
        panicked := false, successPrinted := false }
    else
      let ur := addUserDeps env name (deps.getD [])
      match ur.2 with
      | some msg =>
        { calls := c1 :: c2 :: ur.1, errors := [msg],
          panicked := false, successPrinted := false }
      | none =>
        let cm := Call.writeMain name (get_main_content framework)
        if env cm = false then
          { calls := c1 :: c2 :: ur.1 ++ [cm], errors := [],
            panicked := true, successPrinted := false }
        else
          let extras := extraDepCalls name framework
          let md := createModuleDirs env name module_names
          if md.2 then
            { calls := c1 :: c2 :: ur.1 ++ [cm] ++ extras ++ md.1,
              errors := [], panicked := true, successPrinted := false }
          else
            let cg := Call.writeGitignore name gitignore_content
            if env cg = false then
              { calls := c1 :: c2 :: ur.1 ++ [cm] ++ extras ++ md.1 ++ [cg],
                errors := [], panicked := true, successPrinted := false }
            else
              let ci := Call.initRepo name
              if env ci = false then
                { calls := c1 :: c2 :: ur.1 ++ [cm] ++ extras ++ md.1
                    ++ [cg, ci],
                  errors := ["Failed to initialize git repository"],
                  panicked := false, successPrinted := true }
              else
                { calls := c1 :: c2 :: ur.1 ++ [cm] ++ extras ++ md.1
                    ++ [cg, ci],
                  errors := [], panicked := false, successPrinted := true }

/-- The three subcommands of the CLI (main.rs lines 12-41). -/
inductive Commands where
  | scaffold : String → String → Option (List String) → Commands
  | list : Commands
  | add : String → String → Commands
deriving DecidableEq, Repr

/-- The argument list built by the `Add` branch of `main` (main.rs lines
234-245): `["add", name]` when the version is "latest", otherwise
`["add", name@version]`. -/
def cargoAddArgs (name version : String) : List String :=
  if version = "latest" then ["add", name]
  else ["add", name ++ "@" ++ version]

/-- Outcome of one whole CLI invocation: whether the process panicked and
whether any failure message was printed. -/
structure CliResult where
  panicked : Bool
  reportedFailure : Bool
deriving DecidableEq, Repr

/-- `main` (main.rs lines 218-254): dispatch on the subcommand.  The
`Scaffold` branch runs the workflow; `List` only prints; `Add` runs the
pass-through `cargo add` and prints a success or failure message. -/
def runCli (env : Call → Bool) : Commands → CliResult
  | .scaffold name framework deps =>
    let r := scaffold_project env name framework deps
    { panicked := r.panicked, reportedFailure := !r.errors.isEmpty }
  | .list => { panicked := false, reportedFailure := false }
  | .add name version =>
    let ok := env (Call.passthroughAdd (cargoAddArgs name version))
    { panicked := false, reportedFailure := !ok }

/-- Process exit status of one invocation.  `main` returns `()` on every
normal path and never calls an exit-code primitive, so the process exits 0
unless a panic (modelled by `panicked`) terminates it with the Rust panic
status 101. -/
def mainExitCode (env : Call → Bool) (cmd : Commands) : Nat :=
  if (runCli env cmd).panicked then 101 else 0

/-- The template table of spec section 3: the starter body together with
the extra dependencies the workflow adds for the framework.  The body is
`get_main_content`; the extra-dependency list is read off the
`matches!(framework, "axum" | "actix-web")` guard of main.rs lines
192-195, which adds serde with the derive feature and tokio with the full
feature. -/
structure FrameworkSpec where
  main_source_body : String
  extra_dependencies : List (String × Option String)
deriving DecidableEq, Repr

/-- The extra-dependency list per framework (main.rs lines 192-195). -/
def extra_deps_for (framework : String) : List (String × Option String) :=
  if framework = "axum" ∨ framework = "actix-web" then
    [("serde", some "derive"), ("tokio", some "full")]
  else []

/-- The default spec returned for unrecognized identifiers: hello-world
body, no extra dependencies. -/
def defaultSpec : FrameworkSpec :=
  { main_source_body := default_main_content, extra_dependencies := [] }

/-- The template-table lookup of spec section 4.1, assembled from
`get_main_content` and `extra_deps_for`. -/
def lookup (framework : String) : FrameworkSpec :=
  { main_source_body := get_main_content framework,
    extra_dependencies := extra_deps_for framework }

/-- Splits a character list at newlines (helper for reasoning about the
ignore-file body; structurally recursive so the kernel can evaluate it). -/
def splitLines : List Char → List (List Char)
  | [] => [[]]
  | c :: cs =>
    if c = '\n' then [] :: splitLines cs
    else
      match splitLines cs with
      | [] => [[c]]
      | l :: ls => (c :: l) :: ls

/-- The lines of a string, split at newline characters. -/
def lines (s : String) : List String := (splitLines s.data).map List.asString

/-- The adapter-call projection used by the spec's axum call-sequence test
(spec sections 4.2 and 8): the external-tool operations and the
module-directory / ignore-file / repository steps it enumerates.  The
`src/main.rs` source-file write is the workflow's own template write (spec
section 4.3 step 4), not one of the enumerated adapter calls. -/
def isAdapterCall : Call → Bool
  | .writeMain _ _ => false
  | _ => true

/-- Recognizer for dependency-add calls. -/
def isAddDepCall : Call → Bool
  | .addDep _ _ _ => true
  | _ => false

/-- Recognizer for module-directory-creation calls. -/
def isModuleDirCall : Call → Bool
  | .createModuleDir _ _ => true
  | _ => false

/-- Recognizer for filesystem-write calls (main source file or ignore
file). -/
def isFsWriteCall : Call → Bool
  | .writeMain _ _ => true
  | .writeGitignore _ _ => true
  | _ => false

/-- Recognizer for repository-initialization calls. -/
def isInitRepoCall : Call → Bool
  | .initRepo _ => true
  | _ => false

/-- Environment in which every external operation succeeds. -/
def envAllTrue : Call → Bool := fun _ => true

/-- Environment in which every external operation fails. -/
def envAllFalse : Call → Bool := fun _ => false

/-- Environment in which project creation fails (the directory already
exists, say) and everything else succeeds. -/
def envFailCreate : Call → Bool := fun c =>
  match c with
  | .createProject _ => false
  | _ => true

/-- Environment in which every `cargo add` of serde fails and everything
else succeeds. -/
def envSerdeAddFails : Call → Bool := fun c =>
  match c with
  | .addDep _ "serde" _ => false
  | _ => true

/-- Environment in which exactly the serde-with-derive extra add for
project "p" fails. -/
def envFailSerdeDerive : Call → Bool := fun c =>
  if c = Call.addDep "p" "serde" (some "derive") then false else true

/-- Environment in which every dependency add without a feature flag fails
and everything else succeeds. -/
def envFailPlainAdd : Call → Bool := fun c =>
  match c with
  | .addDep _ _ none => false
  | _ => true

/-- Environment in which exactly the add of "dotenvy" into project "p"
fails. -/
def envFailDotenvy : Call → Bool := fun c =>
  if c = Call.addDep "p" "dotenvy" none then false else true

/-- Environment in which repository initialization fails and everything
else succeeds. -/
def envFailInit : Call → Bool := fun c =>
  match c with
  | .initRepo _ => false
  | _ => true

/-! ## Helper lemmas about the call lists produced by the loops -/

/-- Every call produced by the user-dependency loop is a feature-less
dependency add of one of the requested dependencies. -/
lemma mem_addUserDeps {env : Call → Bool} {name : String} {ds : List String}
    {c : Call} (h : c ∈ (addUserDeps env name ds).1) :
    ∃ d, d ∈ ds ∧ c = Call.addDep name d none := by
  induction ds with
  | nil => simp [addUserDeps] at h
  | cons d ds ih =>
    by_cases he : env (Call.addDep name d none)
    · simp [addUserDeps, he] at h
      rcases h with h | h
      · exact ⟨d, by simp, h⟩
      · obtain ⟨d', hd', hc⟩ := ih h
        exact ⟨d', by simp [hd'], hc⟩
    · simp [addUserDeps, he] at h
      exact ⟨d, by simp, h⟩

/-- Every call produced by the module-directory loop is a
module-directory creation for one of the requested modules. -/
lemma mem_createModuleDirs {env : Call → Bool} {name : String}
    {ms : List String} {c : Call} (h : c ∈ (createModuleDirs env name ms).1) :
    ∃ m, m ∈ ms ∧ c = Call.createModuleDir name m := by
  induction ms with
  | nil => simp [createModuleDirs] at h
  | cons m ms ih =>
    by_cases he : env (Call.createModuleDir name m)
    · simp [createModuleDirs, he] at h
      rcases h with h | h
      · exact ⟨m, by simp, h⟩
      · obtain ⟨m', hm', hc⟩ := ih h
        exact ⟨m', by simp [hm'], hc⟩
    · simp [createModuleDirs, he] at h
      exact ⟨m, by simp, h⟩

/-- The extra-dependency phase only ever contains the serde-with-derive
and tokio-with-full adds. -/
lemma mem_extraDepCalls {name framework : String} {c : Call}
    (h : c ∈ extraDepCalls name framework) :
    c = Call.addDep name "serde" (some "derive") ∨
      c = Call.addDep name "tokio" (some "full") := by
  by_cases hf : framework = "axum" ∨ framework = "actix-web"
  · simp [extraDepCalls, hf] at h
    tauto
  · simp [extraDepCalls, hf] at h

lemma initRepo_not_mem_addUserDeps {env : Call → Bool} {name : String}
    {ds : List String} {n : String} :
    Call.initRepo n ∉ (addUserDeps env name ds).1 := by
  intro h
  obtain ⟨d, _, hc⟩ := mem_addUserDeps h
  simp at hc

lemma initRepo_not_mem_createModuleDirs {env : Call → Bool} {name : String}
    {ms : List String} {n : String} :
    Call.initRepo n ∉ (createModuleDirs env name ms).1 := by
  intro h
  obtain ⟨m, _, hc⟩ := mem_createModuleDirs h
  simp at hc

lemma initRepo_not_mem_extraDepCalls {name framework n : String} :
    Call.initRepo n ∉ extraDepCalls name framework := by
  intro h
  rcases mem_extraDepCalls h with hc | hc <;> simp at hc

lemma writeGitignore_not_mem_addUserDeps {env : Call → Bool}
    {name : String} {ds : List String} {n s : String} :
    Call.writeGitignore n s ∉ (addUserDeps env name ds).1 := by
  intro h
  obtain ⟨d, _, hc⟩ := mem_addUserDeps h
  simp at hc

lemma writeGitignore_not_mem_createModuleDirs {env : Call → Bool}
    {name : String} {ms : List String} {n s : String} :
    Call.writeGitignore n s ∉ (createModuleDirs env name ms).1 := by
  intro h
  obtain ⟨m, _, hc⟩ := mem_createModuleDirs h
  simp at hc

lemma writeGitignore_not_mem_extraDepCalls {name framework n s : String} :
    Call.writeGitignore n s ∉ extraDepCalls name framework := by
  intro h
  rcases mem_extraDepCalls h with hc | hc <;> simp at hc

lemma someFeature_not_mem_addUserDeps {env : Call → Bool}
    {name : String} {ds : List String} {n d f : String} :
    Call.addDep n d (some f) ∉ (addUserDeps env name ds).1 := by
  intro h
  obtain ⟨d', _, hc⟩ := mem_addUserDeps h
  simp at hc

lemma addDep_not_mem_createModuleDirs {env : Call → Bool}
    {name : String} {ms : List String} {n d : String} {f : Option String} :
    Call.addDep n d f ∉ (createModuleDirs env name ms).1 := by
  intro h
  obtain ⟨m, _, hc⟩ := mem_createModuleDirs h
  simp at hc

/-- A run that panicked printed no workflow failure message: the early
returns that print to stderr set no panic, and the panicking filesystem
writes print no workflow message first. -/
lemma scaffold_panicked_no_errors (env : Call → Bool)
    (name framework : String) (deps : Option (List String))
    (h : (scaffold_project env name framework deps).panicked = true) :
    (scaffold_project env name framework deps).errors = [] := by
  cases hc1 : env (Call.createProject name) with
  | false => simp [scaffold_project, hc1] at h
  | true =>
    cases hc2 : env (Call.addDep name framework none) with
    | false => simp [scaffold_project, hc1, hc2] at h
    | true =>
      cases hur : (addUserDeps env name (deps.getD [])).2 with
      | some msg => simp [scaffold_project, hc1, hc2, hur] at h
      | none =>
        cases hcm : env (Call.writeMain name (get_main_content framework)) with
        | false => simp [scaffold_project, hc1, hc2, hur, hcm]
        | true =>
          cases hmd : (createModuleDirs env name module_names).2 with
          | true => simp [scaffold_project, hc1, hc2, hur, hcm, hmd]
          | false =>
            cases hcg : env (Call.writeGitignore name gitignore_content) with
            | false => simp [scaffold_project, hc1, hc2, hur, hcm, hmd, hcg]
            | true =>
              cases hci : env (Call.initRepo name) with
              | false =>
                simp [scaffold_project, hc1, hc2, hur, hcm, hmd, hcg, hci] at h
              | true =>
                simp [scaffold_project, hc1, hc2, hur, hcm, hmd, hcg, hci] at h

/-- Whatever ignore-file body a scaffold run writes is the fixed
`gitignore_content`. -/
lemma scaffold_gitignore_body (env : Call → Bool) (name framework s : String)
    (deps : Option (List String))
    (h : Call.writeGitignore name s ∈
      (scaffold_project env name framework deps).calls) :
    s = gitignore_content := by
  cases hc1 : env (Call.createProject name) with
  | false => simp [scaffold_project, hc1] at h
  | true =>
    cases hc2 : env (Call.addDep name framework none) with
    | false => simp [scaffold_project, hc1, hc2] at h
    | true =>
      cases hur : (addUserDeps env name (deps.getD [])).2 with
      | some msg =>
        simp [scaffold_project, hc1, hc2, hur,
          writeGitignore_not_mem_addUserDeps] at h
      | none =>
        cases hcm : env (Call.writeMain name (get_main_content framework)) with
        | false =>
          simp [scaffold_project, hc1, hc2, hur, hcm,
            writeGitignore_not_mem_addUserDeps] at h
        | true =>
          cases hmd : (createModuleDirs env name module_names).2 with
          | true =>
            simp [scaffold_project, hc1, hc2, hur, hcm, hmd,
              writeGitignore_not_mem_addUserDeps,
              writeGitignore_not_mem_createModuleDirs,
              writeGitignore_not_mem_extraDepCalls] at h
          | false =>
            cases hcg : env (Call.writeGitignore name gitignore_content) with
            | false =>
              simp [scaffold_project, hc1, hc2, hur, hcm, hmd, hcg,
                writeGitignore_not_mem_addUserDeps,
                writeGitignore_not_mem_createModuleDirs,
                writeGitignore_not_mem_extraDepCalls] at h
              exact h
            | true =>
              cases hci : env (Call.initRepo name) with
              | false =>
                simp [scaffold_project, hc1, hc2, hur, hcm, hmd, hcg, hci,
                  writeGitignore_not_mem_addUserDeps,
                  writeGitignore_not_mem_createModuleDirs,
                  writeGitignore_not_mem_extraDepCalls] at h
                exact h
              | true =>
                simp [scaffold_project, hc1, hc2, hur, hcm, hmd, hcg, hci,
                  writeGitignore_not_mem_addUserDeps,
                  writeGitignore_not_mem_createModuleDirs,
                  writeGitignore_not_mem_extraDepCalls] at h
                exact h

/-- Every dependency add performed with a feature flag is one of the two
serde/tokio extras of main.rs lines 192-195. -/
lemma scaffold_featured_add_is_extra (env : Call → Bool)
    (name framework : String) (deps : Option (List String)) (d f : String)
    (h : Call.addDep name d (some f) ∈
      (scaffold_project env name framework deps).calls) :
    (d = "serde" ∧ f = "derive") ∨ (d = "tokio" ∧ f = "full") := by
  cases hc1 : env (Call.createProject name) with
  | false => simp [scaffold_project, hc1] at h
  | true =>
    cases hc2 : env (Call.addDep name framework none) with
    | false => simp [scaffold_project, hc1, hc2] at h
    | true =>
      cases hur : (addUserDeps env name (deps.getD [])).2 with
      | some msg =>
        simp [scaffold_project, hc1, hc2, hur,
          someFeature_not_mem_addUserDeps] at h
      | none =>
        cases hcm : env (Call.writeMain name (get_main_content framework)) with
        | false =>
          simp [scaffold_project, hc1, hc2, hur, hcm,
            someFeature_not_mem_addUserDeps] at h
        | true =>
          cases hmd : (createModuleDirs env name module_names).2 with
          | true =>
            simp [scaffold_project, hc1, hc2, hur, hcm, hmd,
              someFeature_not_mem_addUserDeps,
              addDep_not_mem_createModuleDirs] at h
            rcases mem_extraDepCalls h with hc | hc <;> simp at hc <;> tauto
          | false =>
            cases hcg : env (Call.writeGitignore name gitignore_content) with
            | false =>
              simp [scaffold_project, hc1, hc2, hur, hcm, hmd, hcg,
                someFeature_not_mem_addUserDeps,
                addDep_not_mem_createModuleDirs] at h
              rcases mem_extraDepCalls h with hc | hc <;> simp at hc <;> tauto
            | true =>
              cases hci : env (Call.initRepo name) with
              | false =>
                simp [scaffold_project, hc1, hc2, hur, hcm, hmd, hcg, hci,
                  someFeature_not_mem_addUserDeps,
                  addDep_not_mem_createModuleDirs] at h
                rcases mem_extraDepCalls h with hc | hc <;> simp at hc <;> tauto
              | true =>
                simp [scaffold_project, hc1, hc2, hur, hcm, hmd, hcg, hci,
                  someFeature_not_mem_addUserDeps,
                  addDep_not_mem_createModuleDirs] at h
                rcases mem_extraDepCalls h with hc | hc <;> simp at hc <;> tauto

/-- The user-dependency loop consults the environment only on
feature-less adds, so two environments agreeing there run it alike. -/
lemma addUserDeps_congr (env env' : Call → Bool) (name : String)
    (ds : List String)
    (h : ∀ d, env (Call.addDep name d none) = env' (Call.addDep name d none)) :
    addUserDeps env name ds = addUserDeps env' name ds := by
  induction ds with
  | nil => rfl
  | cons d ds ih => simp only [addUserDeps]; rw [h d, ih]

/-- The module-directory loop consults the environment only on
module-directory calls. -/
lemma createModuleDirs_congr (env env' : Call → Bool) (name : String)
    (ms : List String)
    (h : ∀ m, env (Call.createModuleDir name m) =
      env' (Call.createModuleDir name m)) :
    createModuleDirs env name ms = createModuleDirs env' name ms := by
  induction ms with
  | nil => rfl
  | cons m ms ih => simp only [createModuleDirs]; rw [h m, ih]

/-! ## Claim theorems -/

/-- Claim C1: when the framework is "axum", no additional dependencies are
requested, and every step succeeds, the full trace is create-project,
framework add, main-source write, serde-with-derive add, tokio-with-full
add, the four module-directory creations, the ignore-file write and the
repository initialization — and the adapter calls (everything except the
workflow's own template write of `src/main.rs`, which spec sections 2 and
4.2 keep outside the External Tool Adapter) are exactly the ten calls the
spec enumerates, in that order. -/
theorem axum_scaffold_call_sequence (env : Call → Bool) (name : String)
    (deps : Option (List String)) (hall : ∀ c, env c = true)
    (hdeps : deps = none ∨ deps = some []) :
    (scaffold_project env name "axum" deps).calls =
      [Call.createProject name, Call.addDep name "axum" none,
       Call.writeMain name axum_main_content,
       Call.addDep name "serde" (some "derive"),
       Call.addDep name "tokio" (some "full"),
       Call.createModuleDir name "services", Call.createModuleDir name "models",
       Call.createModuleDir name "handlers", Call.createModuleDir name "routes",
       Call.writeGitignore name gitignore_content, Call.initRepo name] ∧
    (scaffold_project env name "axum" deps).calls.filter isAdapterCall =
      [Call.createProject name, Call.addDep name "axum" none,
       Call.addDep name "serde" (some "derive"),
       Call.addDep name "tokio" (some "full"),
       Call.createModuleDir name "services", Call.createModuleDir name "models",
       Call.createModuleDir name "handlers", Call.createModuleDir name "routes",
       Call.writeGitignore name gitignore_content, Call.initRepo name] := by
  rcases hdeps with h | h <;> subst h <;>
    simp [scaffold_project, hall, addUserDeps, createModuleDirs,
      extraDepCalls, module_names, get_main_content, isAdapterCall]

/-- Witness for C1 at the all-success environment with project "demo2"
and no additional dependencies. -/
theorem axum_scaffold_call_sequence_witness :
    (scaffold_project envAllTrue "demo2" "axum" none).calls.filter isAdapterCall
      = [Call.createProject "demo2", Call.addDep "demo2" "axum" none,
         Call.addDep "demo2" "serde" (some "derive"),
         Call.addDep "demo2" "tokio" (some "full"),
         Call.createModuleDir "demo2" "services",
         Call.createModuleDir "demo2" "models",
         Call.createModuleDir "demo2" "handlers",
         Call.createModuleDir "demo2" "routes",
         Call.writeGitignore "demo2" gitignore_content,
         Call.initRepo "demo2"] :=
  (axum_scaffold_call_sequence envAllTrue "demo2" none (fun _ => rfl)
    (Or.inl rfl)).2

/-- Claim C4: any run whose trace reaches the repository-initialization
call prints the final success message whatever that call's outcome is,
and a failing initialization is reported on stderr. -/
theorem init_repo_failure_nonfatal (env : Call → Bool)
    (name framework : String) (deps : Option (List String))
    (h : Call.initRepo name ∈ (scaffold_project env name framework deps).calls) :
    (scaffold_project env name framework deps).successPrinted = true ∧
      (env (Call.initRepo name) = false →
        "Failed to initialize git repository" ∈
          (scaffold_project env name framework deps).errors) := by
  cases hc1 : env (Call.createProject name) with
  | false => simp [scaffold_project, hc1] at h
  | true =>
    cases hc2 : env (Call.addDep name framework none) with
    | false => simp [scaffold_project, hc1, hc2] at h
    | true =>
      cases hur : (addUserDeps env name (deps.getD [])).2 with
      | some msg =>
        simp [scaffold_project, hc1, hc2, hur,
          initRepo_not_mem_addUserDeps] at h
      | none =>
        cases hcm : env (Call.writeMain name (get_main_content framework)) with
        | false =>
          simp [scaffold_project, hc1, hc2, hur, hcm,
            initRepo_not_mem_addUserDeps] at h
        | true =>
          cases hmd : (createModuleDirs env name module_names).2 with
          | true =>
            simp [scaffold_project, hc1, hc2, hur, hcm, hmd,
              initRepo_not_mem_addUserDeps, initRepo_not_mem_createModuleDirs,
              initRepo_not_mem_extraDepCalls] at h
          | false =>
            cases hcg : env (Call.writeGitignore name gitignore_content) with
            | false =>
              simp [scaffold_project, hc1, hc2, hur, hcm, hmd, hcg,
                initRepo_not_mem_addUserDeps,
                initRepo_not_mem_createModuleDirs,
                initRepo_not_mem_extraDepCalls] at h
            | true =>
              cases hci : env (Call.initRepo name) with
              | false =>
                simp [scaffold_project, hc1, hc2, hur, hcm, hmd, hcg, hci]
              | true =>
                simp [scaffold_project, hc1, hc2, hur, hcm, hmd, hcg, hci]

/-- Witness for C4: with only repository initialization failing, the
success message is still printed and the failure is reported. -/
theorem init_repo_failure_nonfatal_witness :
    (scaffold_project envFailInit "p" "axum" none).successPrinted = true ∧
      "Failed to initialize git repository" ∈
        (scaffold_project envFailInit "p" "axum" none).errors := by
  have h := init_repo_failure_nonfatal envFailInit "p" "axum" none (by decide)
  exact ⟨h.1, h.2 (by decide)⟩

/-- Claim C5: when project creation fails, the trace is the single
create-project call — zero dependency adds, zero file writes, zero
module-directory creations, zero repository initializations. -/
theorem create_failure_aborts (env : Call → Bool) (name framework : String)
    (deps : Option (List String))
    (h : env (Call.createProject name) = false) :
    (scaffold_project env name framework deps).calls =
        [Call.createProject name] ∧
      ((scaffold_project env name framework deps).calls.countP
          isAddDepCall = 0) ∧
      ((scaffold_project env name framework deps).calls.countP
          isFsWriteCall = 0) ∧
      ((scaffold_project env name framework deps).calls.countP
          isModuleDirCall = 0) ∧
      ((scaffold_project env name framework deps).calls.countP
          isInitRepoCall = 0) := by
  simp [scaffold_project, h, isAddDepCall, isFsWriteCall, isModuleDirCall,
    isInitRepoCall, List.countP_cons]

/-- Witness for C5 at the all-failure environment (creation fails because
the directory exists, say), with additional dependencies requested. -/
theorem create_failure_aborts_witness :
    (scaffold_project envAllFalse "p" "axum" (some ["dotenvy"])).calls =
        [Call.createProject "p"] ∧
      ((scaffold_project envAllFalse "p" "axum"
          (some ["dotenvy"])).calls.countP isAddDepCall = 0) := by
  have h := create_failure_aborts envAllFalse "p" "axum" (some ["dotenvy"])
    (by decide)
  exact ⟨h.1, h.2.1⟩

/-- Claim C10: whenever project creation succeeds, the second call of the
trace is the dependency add of the framework identifier itself — for any
identifier, recognized or not; the template fallback never suppresses it. -/
theorem framework_dep_always_added (env : Call → Bool)
    (name framework : String) (deps : Option (List String))
    (h : env (Call.createProject name) = true) :
    ∃ rest, (scaffold_project env name framework deps).calls =
      Call.createProject name :: Call.addDep name framework none :: rest := by
  cases hc2 : env (Call.addDep name framework none) with
  | false => exact ⟨[], by simp [scaffold_project, h, hc2]⟩
  | true =>
    cases hur : (addUserDeps env name (deps.getD [])).2 with
    | some msg =>
      exact ⟨(addUserDeps env name (deps.getD [])).1,
        by simp [scaffold_project, h, hc2, hur]⟩
    | none =>
      cases hcm : env (Call.writeMain name (get_main_content framework)) with
      | false =>
        exact ⟨(addUserDeps env name (deps.getD [])).1 ++
          [Call.writeMain name (get_main_content framework)],
          by simp [scaffold_project, h, hc2, hur, hcm]⟩
      | true =>
        cases hmd : (createModuleDirs env name module_names).2 with
        | true =>
          exact ⟨(addUserDeps env name (deps.getD [])).1 ++
            Call.writeMain name (get_main_content framework) ::
              (extraDepCalls name framework ++
                (createModuleDirs env name module_names).1),
            by simp [scaffold_project, h, hc2, hur, hcm, hmd]⟩
        | false =>
          cases hcg : env (Call.writeGitignore name gitignore_content) with
          | false =>
            exact ⟨(addUserDeps env name (deps.getD [])).1 ++
              Call.writeMain name (get_main_content framework) ::
                (extraDepCalls name framework ++
                  ((createModuleDirs env name module_names).1 ++
                    [Call.writeGitignore name gitignore_content])),
              by simp [scaffold_project, h, hc2, hur, hcm, hmd, hcg]⟩
          | true =>
            cases hci : env (Call.initRepo name) with
            | false =>
              exact ⟨(addUserDeps env name (deps.getD [])).1 ++
                Call.writeMain name (get_main_content framework) ::
                  (extraDepCalls name framework ++
                    ((createModuleDirs env name module_names).1 ++
                      [Call.writeGitignore name gitignore_content,
                       Call.initRepo name])),
                by simp [scaffold_project, h, hc2, hur, hcm, hmd, hcg, hci]⟩
            | true =>
              exact ⟨(addUserDeps env name (deps.getD [])).1 ++
                Call.writeMain name (get_main_content framework) ::
                  (extraDepCalls name framework ++
                    ((createModuleDirs env name module_names).1 ++
                      [Call.writeGitignore name gitignore_content,
                       Call.initRepo name])),
                by simp [scaffold_project, h, hc2, hur, hcm, hmd, hcg, hci]⟩

/-- Witness for C10 with the unrecognized framework identifier "rocket":
the framework add still happens right after project creation. -/
theorem framework_dep_always_added_witness :
    ∃ rest, (scaffold_project envAllTrue "p" "rocket" none).calls =
      Call.createProject "p" :: Call.addDep "p" "rocket" none :: rest :=
  framework_dep_always_added envAllTrue "p" "rocket" none (by decide)

/-- Counterexample to claim C2 as stated: with project creation failing,
the workflow reports a failure yet the process exit status is 0, and the
pass-through add reports a failure while the process likewise exits 0 —
`main` never turns a reported failure into a nonzero exit status. -/
theorem exit_status_counterexample :
    (runCli envFailCreate (Commands.scaffold "demo" "axum" none)).reportedFailure
        = true ∧
      mainExitCode envFailCreate (Commands.scaffold "demo" "axum" none) = 0 ∧
      (runCli envAllFalse (Commands.add "foo" "2.0")).reportedFailure = true ∧
      mainExitCode envAllFalse (Commands.add "foo" "2.0") = 0 := by decide

/-- Claim C2 amended: a reported failure leaves the exit status 0; the
exit status is 0 exactly when the process did not panic (only a
filesystem-write failure panics, with the Rust panic status 101). -/
theorem exit_status_amended (env : Call → Bool) (cmd : Commands) :
    ((runCli env cmd).reportedFailure = true → mainExitCode env cmd = 0) ∧
      (mainExitCode env cmd = 0 ↔ (runCli env cmd).panicked = false) := by
  constructor
  · intro h
    cases cmd with
    | scaffold n f d =>
      have hp : (scaffold_project env n f d).panicked = false := by
        by_contra hp'
        have hp2 : (scaffold_project env n f d).panicked = true := by
          simpa using hp'
        have := scaffold_panicked_no_errors env n f d hp2
        simp [runCli, this] at h
      simp [mainExitCode, runCli, hp]
    | list => simp [mainExitCode, runCli]
    | add n v => simp [mainExitCode, runCli]
  · cases hp : (runCli env cmd).panicked <;> simp [mainExitCode, hp]

/-- Witness for the amended C2: a failed project creation and a failed
pass-through add, each reported, each exiting 0. -/
theorem exit_status_amended_witness :
    mainExitCode envFailCreate (Commands.scaffold "demo" "axum" none) = 0 ∧
      mainExitCode envAllFalse (Commands.add "foo" "2.0") = 0 :=
  ⟨(exit_status_amended envFailCreate
      (Commands.scaffold "demo" "axum" none)).1 (by decide),
   (exit_status_amended envAllFalse (Commands.add "foo" "2.0")).1 (by decide)⟩

/-- Counterexample to claim C3 as stated: when the serde extra add of
step 5 fails (and nothing else), the run still performs the tokio add,
the module-directory creations, the ignore-file write and the repository
initialization, and still prints the success message — the workflow does
not short-circuit on that failure, because main.rs lines 193-194 discard
the results of those two adds. -/
theorem short_circuit_counterexample :
    envSerdeAddFails (Call.addDep "demo" "serde" (some "derive")) = false ∧
      Call.addDep "demo" "tokio" (some "full") ∈
        (scaffold_project envSerdeAddFails "demo" "axum" none).calls ∧
      Call.createModuleDir "demo" "services" ∈
        (scaffold_project envSerdeAddFails "demo" "axum" none).calls ∧
      Call.writeGitignore "demo" gitignore_content ∈
        (scaffold_project envSerdeAddFails "demo" "axum" none).calls ∧
      Call.initRepo "demo" ∈
        (scaffold_project envSerdeAddFails "demo" "axum" none).calls ∧
      (scaffold_project envSerdeAddFails "demo" "axum" none).successPrinted
        = true := by decide

/-- Claim C3 amended: the workflow short-circuits on the first failure
among project creation, the framework dependency add and the
user-supplied additional-dependency adds; the serde/tokio
extra-dependency additions of step 5 are excepted — their outcomes are
discarded, so the run is unchanged under any reassignment of their
results (and repository-initialization failure is likewise non-aborting). -/
theorem short_circuit_amended (env env' : Call → Bool)
    (name framework : String) (deps : Option (List String)) :
    (env (Call.createProject name) = false →
      (scaffold_project env name framework deps).calls =
        [Call.createProject name]) ∧
      (env (Call.createProject name) = true →
        env (Call.addDep name framework none) = false →
        (scaffold_project env name framework deps).calls =
          [Call.createProject name, Call.addDep name framework none]) ∧
      (∀ msg, env (Call.createProject name) = true →
        env (Call.addDep name framework none) = true →
        (addUserDeps env name (deps.getD [])).2 = some msg →
        (scaffold_project env name framework deps).calls =
            Call.createProject name :: Call.addDep name framework none ::
              (addUserDeps env name (deps.getD [])).1 ∧
          (scaffold_project env name framework deps).successPrinted = false) ∧
      ((∀ c, c ≠ Call.addDep name "serde" (some "derive") →
          c ≠ Call.addDep name "tokio" (some "full") → env c = env' c) →
        scaffold_project env name framework deps =
          scaffold_project env' name framework deps) := by
  refine ⟨?_, ?_, ?_, ?_⟩
  · intro h1
    simp [scaffold_project, h1]
  · intro h1 h2
    simp [scaffold_project, h1, h2]
  · intro msg h1 h2 hmsg
    simp [scaffold_project, h1, h2, hmsg]
  · intro hagree
    have h1 : env (Call.createProject name) = env' (Call.createProject name) :=
      hagree _ (by simp) (by simp)
    have h2 : env (Call.addDep name framework none) =
        env' (Call.addDep name framework none) :=
      hagree _ (by simp) (by simp)
    have h3 : env (Call.writeMain name (get_main_content framework)) =
        env' (Call.writeMain name (get_main_content framework)) :=
      hagree _ (by simp) (by simp)
    have h4 : env (Call.writeGitignore name gitignore_content) =
        env' (Call.writeGitignore name gitignore_content) :=
      hagree _ (by simp) (by simp)
    have h5 : env (Call.initRepo name) = env' (Call.initRepo name) :=
      hagree _ (by simp) (by simp)
    have hu : addUserDeps env name (deps.getD []) =
        addUserDeps env' name (deps.getD []) :=
      addUserDeps_congr env env' name _ (fun d => hagree _ (by simp) (by simp))
    have hm : createModuleDirs env name module_names =
        createModuleDirs env' name module_names :=
      createModuleDirs_congr env env' name _
        (fun m => hagree _ (by simp) (by simp))
    simp only [scaffold_project, h1, h2, h3, h4, h5, hu, hm]

/-- Witness for the amended C3: creation failure stops everything,
framework-add failure stops after two calls, a failed user dependency
stops the run unsuccessfully, and flipping only the serde-with-derive
extra outcome leaves the whole run unchanged. -/
theorem short_circuit_amended_witness :
    (scaffold_project envAllFalse "p" "axum" none).calls =
        [Call.createProject "p"] ∧
      (scaffold_project envFailPlainAdd "p" "axum" none).calls =
        [Call.createProject "p", Call.addDep "p" "axum" none] ∧
      ((scaffold_project envFailDotenvy "p" "axum" (some ["dotenvy"])).calls =
          [Call.createProject "p", Call.addDep "p" "axum" none,
           Call.addDep "p" "dotenvy" none] ∧
        (scaffold_project envFailDotenvy "p" "axum"
            (some ["dotenvy"])).successPrinted = false) ∧
      scaffold_project envFailSerdeDerive "p" "axum" none =
        scaffold_project envAllTrue "p" "axum" none :=
  ⟨(short_circuit_amended envAllFalse envAllFalse "p" "axum" none).1
      (by decide),
   (short_circuit_amended envFailPlainAdd envFailPlainAdd "p" "axum" none).2.1
      (by decide) (by decide),
   (short_circuit_amended envFailDotenvy envFailDotenvy "p" "axum"
      (some ["dotenvy"])).2.2.1 "Failed to add dependency dotenvy"
      (by decide) (by decide) (by decide),
   (short_circuit_amended envFailSerdeDerive envAllTrue "p" "axum" none).2.2.2
      (by
        intro c h1 h2
        simp [envFailSerdeDerive, envAllTrue, h1])⟩

/-- Claim C6: the template lookup is a total pure function (it is a Lean
function, so totality, determinism and freedom from side effects hold by
construction); every identifier other than "axum" and "actix-web" maps to
the default spec with the hello-world placeholder body and an empty
extra-dependency list, and each supported identifier gets a non-empty
body (with the serde/tokio extra dependencies). -/
theorem template_lookup_total_default :
    (∀ f : String, f ≠ "axum" → f ≠ "actix-web" → lookup f = defaultSpec) ∧
      defaultSpec.extra_dependencies = [] ∧
      defaultSpec.main_source_body = default_main_content ∧
      (lookup "axum").main_source_body ≠ "" ∧
      (lookup "actix-web").main_source_body ≠ "" ∧
      defaultSpec.main_source_body ≠ "" ∧
      (lookup "axum").extra_dependencies =
        [("serde", some "derive"), ("tokio", some "full")] ∧
      (lookup "actix-web").extra_dependencies =
        [("serde", some "derive"), ("tokio", some "full")] := by
  refine ⟨?_, by decide, by decide, by decide, by decide, by decide,
    by decide, by decide⟩
  intro f h1 h2
  simp [lookup, defaultSpec, get_main_content, extra_deps_for, h1, h2]

/-- Witness for C6 at the unrecognized identifier "rocket". -/
theorem template_lookup_total_default_witness :
    lookup "rocket" = defaultSpec :=
  template_lookup_total_default.1 "rocket" (by decide) (by decide)

/-- Claim C7: the pass-through add invokes `cargo` with `["add", name]`
when the version is "latest" (the clap default, so defaulted and
explicitly supplied "latest" coincide), and with the single dependency
argument `name@version` otherwise. -/
theorem add_version_argument (name version : String) :
    cargoAddArgs name "latest" = ["add", name] ∧
      (version ≠ "latest" →
        cargoAddArgs name version = ["add", name ++ "@" ++ version]) := by
  constructor
  · simp [cargoAddArgs]
  · intro h
    simp [cargoAddArgs, h]

/-- Witness for C7 at name "foo", version "1.2.3". -/
theorem add_version_argument_witness :
    cargoAddArgs "foo" "1.2.3" = ["add", "foo@1.2.3"] :=
  (add_version_argument "foo" "1.2.3").2 (by decide)

/-- Claim C8: any ignore-file body a scaffold run writes is the fixed
`gitignore_content`, whose lines literally include `/target/` and `.env`. -/
theorem gitignore_body_lines :
    (∀ (env : Call → Bool) (name framework s : String)
        (deps : Option (List String)),
      Call.writeGitignore name s ∈
          (scaffold_project env name framework deps).calls →
        s = gitignore_content) ∧
      "/target/" ∈ lines gitignore_content ∧
      ".env" ∈ lines gitignore_content := by
  refine ⟨?_, by decide, by decide⟩
  intro env name framework s deps h
  exact scaffold_gitignore_body env name framework s deps h

/-- Witness for C8: a successful run writes exactly the fixed body. -/
theorem gitignore_body_lines_witness :
    gitignore_content = gitignore_content :=
  gitignore_body_lines.1 envAllTrue "q" "axum" gitignore_content none
    (by decide)

/-- Claim C9: every dependency-add call the user-dependency loop makes
carries no feature flag, and in a whole scaffold run any add that does
carry a feature flag is one of the two serde/tokio template extras —
never a user-supplied dependency. -/
theorem user_deps_no_feature (env : Call → Bool) (name framework : String)
    (deps : Option (List String)) :
    (∀ d (f : Option String),
      Call.addDep name d f ∈ (addUserDeps env name (deps.getD [])).1 →
        f = none) ∧
      (∀ d f, Call.addDep name d (some f) ∈
          (scaffold_project env name framework deps).calls →
        (d = "serde" ∧ f = "derive") ∨ (d = "tokio" ∧ f = "full")) := by
  constructor
  · intro d f h
    obtain ⟨d', _, hc⟩ := mem_addUserDeps h
    simp at hc
    exact hc.2
  · intro d f h
    exact scaffold_featured_add_is_extra env name framework deps d f h

/-- Witness for C9: the "dotenvy" user dependency is added featureless,
and the only featured adds of a full axum run are the template extras. -/
theorem user_deps_no_feature_witness :
    (none : Option String) = none ∧
      (("serde" = "serde" ∧ "derive" = "derive") ∨
        ("serde" = "tokio" ∧ "derive" = "full")) :=
  ⟨(user_deps_no_feature envAllTrue "p" "axum" (some ["dotenvy"])).1
      "dotenvy" none (by decide),
   (user_deps_no_feature envAllTrue "p" "axum" (some ["dotenvy"])).2
      "serde" "derive" (by decide)⟩

end Scaffolder
